import Mathlib

/-!
Shallow embedding of the github-csv-data-retriever repository
(src/retriever.py and src/github.py) and verification of the frozen
claims about it.

Python dynamic values coming out of JSON decoding are modelled by the
inductive type JVal below; Python exceptions are modelled by the Except
monad with error type PyErr.  Functions keep the names of the source
functions where Lean allows it.
-/

/-- A decoded JSON value, as Python `response.json()` would produce it.
Python None and JSON null are both modelled by `JVal.null`. -/
inductive JVal where
  | null : JVal
  | bool : Bool → JVal
  | int : Int → JVal
  | str : String → JVal
  | arr : List JVal → JVal
  | obj : List (String × JVal) → JVal

mutual

/-- Decidable equality for JVal (the automatic derivation does not support
this nested inductive). -/
def JVal.decEq : (a b : JVal) → Decidable (a = b)
  | .null, .null => isTrue rfl
  | .null, .bool _ => isFalse (fun h => nomatch h)
  | .null, .int _ => isFalse (fun h => nomatch h)
  | .null, .str _ => isFalse (fun h => nomatch h)
  | .null, .arr _ => isFalse (fun h => nomatch h)
  | .null, .obj _ => isFalse (fun h => nomatch h)
  | .bool _, .null => isFalse (fun h => nomatch h)
  | .bool a, .bool b =>
      if h : a = b then isTrue (by rw [h]) else isFalse (by simp [h])
  | .bool _, .int _ => isFalse (fun h => nomatch h)
  | .bool _, .str _ => isFalse (fun h => nomatch h)
  | .bool _, .arr _ => isFalse (fun h => nomatch h)
  | .bool _, .obj _ => isFalse (fun h => nomatch h)
  | .int _, .null => isFalse (fun h => nomatch h)
  | .int _, .bool _ => isFalse (fun h => nomatch h)
  | .int a, .int b =>
      if h : a = b then isTrue (by rw [h]) else isFalse (by simp [h])
  | .int _, .str _ => isFalse (fun h => nomatch h)
  | .int _, .arr _ => isFalse (fun h => nomatch h)
  | .int _, .obj _ => isFalse (fun h => nomatch h)
  | .str _, .null => isFalse (fun h => nomatch h)
  | .str _, .bool _ => isFalse (fun h => nomatch h)
  | .str _, .int _ => isFalse (fun h => nomatch h)
  | .str a, .str b =>
      if h : a = b then isTrue (by rw [h]) else isFalse (by simp [h])
  | .str _, .arr _ => isFalse (fun h => nomatch h)
  | .str _, .obj _ => isFalse (fun h => nomatch h)
  | .arr _, .null => isFalse (fun h => nomatch h)
  | .arr _, .bool _ => isFalse (fun h => nomatch h)
  | .arr _, .int _ => isFalse (fun h => nomatch h)
  | .arr _, .str _ => isFalse (fun h => nomatch h)
  | .arr xs, .arr ys =>
      match JVal.decEqList xs ys with
      | isTrue h => isTrue (by rw [h])
      | isFalse h => isFalse (by simp [h])
  | .arr _, .obj _ => isFalse (fun h => nomatch h)
  | .obj _, .null => isFalse (fun h => nomatch h)
  | .obj _, .bool _ => isFalse (fun h => nomatch h)
  | .obj _, .int _ => isFalse (fun h => nomatch h)
  | .obj _, .str _ => isFalse (fun h => nomatch h)
  | .obj _, .arr _ => isFalse (fun h => nomatch h)
  | .obj xs, .obj ys =>
      match JVal.decEqFields xs ys with
      | isTrue h => isTrue (by rw [h])
      | isFalse h => isFalse (by simp [h])

def JVal.decEqList : (xs ys : List JVal) → Decidable (xs = ys)
  | [], [] => isTrue rfl
  | [], _ :: _ => isFalse (fun h => nomatch h)
  | _ :: _, [] => isFalse (fun h => nomatch h)
  | x :: xs, y :: ys =>
      match JVal.decEq x y with
      | isFalse h => isFalse (by simp [h])
      | isTrue h1 =>
          match JVal.decEqList xs ys with
          | isTrue h2 => isTrue (by rw [h1, h2])
          | isFalse h2 => isFalse (by simp [h2])

def JVal.decEqFields : (xs ys : List (String × JVal)) → Decidable (xs = ys)
  | [], [] => isTrue rfl
  | [], _ :: _ => isFalse (fun h => nomatch h)
  | _ :: _, [] => isFalse (fun h => nomatch h)
  | (k1, v1) :: xs, (k2, v2) :: ys =>
      if hk : k1 = k2 then
        match JVal.decEq v1 v2 with
        | isFalse h => isFalse (by simp [h])
        | isTrue h1 =>
            match JVal.decEqFields xs ys with
            | isTrue h2 => isTrue (by rw [hk, h1, h2])
            | isFalse h2 => isFalse (by simp [h2])
      else isFalse (by simp [hk])

end

instance : DecidableEq JVal := JVal.decEq

/-- Python exceptions that the modelled code can raise. -/
inductive PyErr where
  | keyError : PyErr
  | typeError : PyErr
  | valueError : PyErr
  | runtimeError : String → PyErr
deriving DecidableEq

/-- Python subscript `v[k]` with a string key: KeyError when the key is
missing from a dict, TypeError when the value is not a dict (this includes
`None[k]`). Source: the bare subscript accesses in retriever.py. -/
def jget (v : JVal) (k : String) : Except PyErr JVal :=
  match v with
  | .obj fs =>
      match fs.lookup k with
      | some x => .ok x
      | none => .error .keyError
  | _ => .error .typeError

/-- Python `len(v)`: defined for lists, strings and dicts, TypeError
otherwise. -/
def pyLen (v : JVal) : Except PyErr Int :=
  match v with
  | .arr xs => .ok xs.length
  | .str s => .ok s.length
  | .obj fs => .ok fs.length
  | _ => .error .typeError

/-- Python iteration `for x in v`: list elements, string characters,
dict keys; TypeError otherwise. -/
def pyIter (v : JVal) : Except PyErr (List JVal) :=
  match v with
  | .arr xs => .ok xs
  | .str s => .ok (s.data.map (fun c => .str (String.mk [c])))
  | .obj fs => .ok (fs.map (fun f => .str f.1))
  | _ => .error .typeError

/-- Digits of a decimal literal, none when empty or a non-digit occurs. -/
def parseDigits (cs : List Char) : Option Nat :=
  if cs.isEmpty then none
  else if cs.all (·.isDigit) then
    some (cs.foldl (fun a c => a * 10 + (c.toNat - 48)) 0)
  else none

/-- Strip leading and trailing whitespace from a character list, as
Python `int` does before parsing. -/
def stripWhitespace (cs : List Char) : List Char :=
  ((cs.dropWhile (fun c => c.isWhitespace)).reverse.dropWhile
    (fun c => c.isWhitespace)).reverse

/-- Python `int(s)` on a string: optional surrounding whitespace, optional
sign, decimal digits; ValueError otherwise.  (Digit-group underscores are
not modelled; no claim uses them.) -/
def pyInt (s : String) : Except PyErr Int :=
  match stripWhitespace s.data with
  | '-' :: rest =>
      match parseDigits rest with
      | some n => .ok (-(n : Int))
      | none => .error .valueError
  | '+' :: rest =>
      match parseDigits rest with
      | some n => .ok (n : Int)
      | none => .error .valueError
  | cs =>
      match parseDigits cs with
      | some n => .ok (n : Int)
      | none => .error .valueError

/-- Python `str(v)` / f-string interpolation of a JSON value.  Faithful for
None, booleans, integers and strings, which are the only values the source
ever interpolates into cursors and queries; container values are rendered
by a marker (no claim interpolates a container). -/
def pyFormat (v : JVal) : String :=
  match v with
  | .null => "None"
  | .bool b => if b then "True" else "False"
  | .int n => toString n
  | .str s => s
  | .arr _ => "<list>"
  | .obj _ => "<dict>"

/-- One repository row as built by `DataFetcher.parse_gql_result`
(a Python dict with exactly these keys).  The `readme` field models the
key added later by `_enhance_repos_with_readme`; it is absent (`none`)
until enrichment runs. -/
structure RepoRecord where
  id : JVal
  name : JVal
  name_with_owner : JVal
  stargazers_count : JVal
  fork_count : JVal
  primary_language : JVal
  languages : List JVal
  html_url : JVal
  topics : List JVal
  description : JVal
  readme : Option String := none
deriving DecidableEq

instance : Inhabited RepoRecord :=
  ⟨{ id := .null, name := .null, name_with_owner := .null,
     stargazers_count := .null, fork_count := .null, primary_language := .null,
     languages := [], html_url := .null, topics := [], description := .null }⟩

/-- The body of the `for repo in result["data"]["search"]["edges"]` loop in
`DataFetcher.parse_gql_result`: builds one row dict from one edge, raising
KeyError/TypeError exactly where the Python subscripts would. -/
def parseEdge (repo : JVal) : Except PyErr RepoRecord := do
  let repo_data ← jget repo "node"
  let rt ← jget repo_data "repositoryTopics"
  let rtNodes ← jget rt "nodes"
  let rtList ← pyIter rtNodes
  let topics ← rtList.mapM (fun t => do
    let tp ← jget t "topic"
    jget tp "name")
  let lgs ← jget repo_data "languages"
  let lgNodes ← jget lgs "nodes"
  let lgList ← pyIter lgNodes
  let languages ← lgList.mapM (fun l => jget l "name")
  let rid ← jget repo_data "id"
  let name ← jget repo_data "name"
  let nameWithOwner ← jget repo_data "nameWithOwner"
  let stars ← jget repo_data "stargazerCount"
  let forks ← jget repo_data "forkCount"
  let pl ← jget repo_data "primaryLanguage"
  let primary ← if pl ≠ JVal.null then jget pl "name" else pure JVal.null
  let url ← jget repo_data "url"
  let desc ← jget repo_data "description"
  return { id := rid, name := name, name_with_owner := nameWithOwner,
           stargazers_count := stars, fork_count := forks,
           primary_language := primary, languages := languages,
           html_url := url, topics := topics, description := desc }

/-- `DataFetcher.parse_gql_result`.  The input is the value the transport
returned; `JVal.null` models Python None, which is both the transport's
"no result" signal and a JSON null body.  The second component of the
result is the Python value returned as the next cursor: the source returns
the integer `0` on the empty/missing path, the end cursor when
`startCursor` and `endCursor` differ, and None when they are equal. -/
def parse_gql_result (result : JVal) : Except PyErr (List RepoRecord × JVal) :=
  if result = JVal.null then .ok ([], .int 0)
  else do
    let d ← jget result "data"
    if d = JVal.null then return ([], .int 0) else
    let s ← jget d "search"
    if s = JVal.null then return ([], .int 0) else
    let e ← jget s "edges"
    if e = JVal.null then return ([], .int 0) else
    let n ← pyLen e
    if n = 0 then return ([], .int 0) else
    let pi ← jget s "pageInfo"
    let start_cursor ← jget pi "startCursor"
    let end_cursor ← jget pi "endCursor"
    let edges ← pyIter e
    let recs ← edges.mapM parseEdge
    return (recs, if start_cursor ≠ end_cursor then end_cursor else JVal.null)

deriving instance DecidableEq for Except

/-! ## The pagination controller (`DataFetcher.read_repos_data`) -/

/-- `PAGE_SIZE` in retriever.py. -/
def PAGE_SIZE : Int := 100

/-- `MAX_ITEMS_PER_QUERY` in retriever.py. -/
def MAX_ITEMS_PER_QUERY : Int := 1000

/-- The mutable fields of a `DataFetcher` instance set by `__init__`
(besides the constant query template and the transport). -/
structure FetcherState where
  total_read : Int
  reset_counter : Int
  read_ids : List JVal
deriving DecidableEq

/-- `DataFetcher.__init__`: counters at zero, reset counter at
`MAX_ITEMS_PER_QUERY`, no identifiers seen. -/
def DataFetcher_init : FetcherState :=
  { total_read := 0, reset_counter := MAX_ITEMS_PER_QUERY, read_ids := [] }

/-- The three values interpolated into the `gql_format` template by the
`%` operator: the search string, the page size and the `after` literal.
The surrounding constant query text is not repeated here. -/
structure GqlQuery where
  search : String
  first : Int
  after : String
deriving DecidableEq

/-- `f"stars:>{more_than_stars}"` as interpolated into the search query. -/
def starsSearch (more_than_stars : JVal) : String :=
  "stars:>" ++ pyFormat more_than_stars

/-- Python `v + 1`, used on `more_than_stars`: defined for integers (and
booleans, which Python treats as integers); TypeError otherwise. -/
def pyAddOne (v : JVal) : Except PyErr JVal :=
  match v with
  | .int n => .ok (.int (n + 1))
  | .bool b => .ok (.int ((if b then 1 else 0) + 1))
  | _ => .error .typeError

/-- The local variables of one `read_repos_data` call, together with the
instance state and a counter of transport calls issued so far (used to
index the transport oracle). -/
structure LoopSt where
  fetcher : FetcherState
  repos_data : List RepoRecord
  page : Int
  next_cursor : Option String
  more_than_stars : JVal
  gql : GqlQuery
  calls : Nat
deriving DecidableEq

/-- `DataFetcher._enhance_repos_with_readme`: one `get_readme` transport
call per record, storing the result in the record's readme field.  The
readme fetcher `rf` abstracts `self.github.get_readme` (modelled
separately as `get_readme` below); it receives the record's
`name_with_owner` value. -/
def enhance_repos_with_readme (rf : JVal → Except PyErr (Option String)) :
    List RepoRecord → Except PyErr (List RepoRecord)
  | [] => .ok []
  | r :: rs => do
      let rm ← rf r.name_with_owner
      let rest ← enhance_repos_with_readme rf rs
      return { r with readme := rm } :: rest

/-- Result of the cursor/threshold update at the bottom of the page loop:
either new values for the reset counter, `more_than_stars` and
`next_cursor` and the loop continues, or the `break` in the
`next_cursor is None` branch. -/
inductive CursorUpdate where
  | advance (reset_counter : Int) (more_than_stars : JVal) (next_cursor : String)
  | halt
deriving DecidableEq

/-- The `if self.reset_counter <= 0: ... elif next_cursor is not None: ...
elif next_cursor is None: break` block at the bottom of the page loop in
`DataFetcher.read_repos_data`.  In the reset branch `more_than_stars`
advances to `last_stargazers_count`, or by one when both are equal, and
the cursor restarts at the literal "null"; in the second branch the
cursor becomes the parser's returned cursor value interpolated into an
f-string between double quotes; in the third branch the loop breaks. -/
def cursor_threshold_update (reset_counter : Int) (more_than_stars : JVal)
    (last_stargazers_count : JVal) (next_cursor : Option String)
    (parsed_cursor : JVal) : Except PyErr CursorUpdate :=
  if reset_counter ≤ 0 then do
    let stars ← if more_than_stars ≠ last_stargazers_count
      then pure last_stargazers_count
      else pyAddOne more_than_stars
    return .advance MAX_ITEMS_PER_QUERY stars "null"
  else
    match next_cursor with
    | some _ =>
        return .advance reset_counter more_than_stars
          ("\"" ++ pyFormat parsed_cursor ++ "\"")
    | none => return .halt

/-- Result of one iteration of the `while` body: continue looping or stop
(either `break`). -/
inductive StepRes where
  | again (st : LoopSt)
  | finished (st : LoopSt)
deriving DecidableEq

/-- One iteration of the `while len(repos_data) < max_chunk_size` body of
`DataFetcher.read_repos_data`, assuming the loop condition held.
`transport` is the sequence of values `self.github.graphql(gql)` returns
(`JVal.null` models Python None; a call that raised would abort the whole
function and is not modelled). -/
def read_step (transport : Nat → JVal) (rf : JVal → Except PyErr (Option String))
    (st : LoopSt) : Except PyErr StepRes := do
  let st := { st with page := st.page + 1 }
  let raw := transport st.calls
  let st := { st with calls := st.calls + 1 }
  let (part0, parsedCursor) ← parse_gql_result raw
  if part0.length = 0 then
    return .finished st
  else
    let st := { st with fetcher := { st.fetcher with
      reset_counter := st.fetcher.reset_counter - part0.length } }
    let last_stargazers_count := (part0.getLastD default).stargazers_count
    -- filter out already read projects in case of duplicated read
    let part1 := part0.filter (fun r => decide (r.id ∉ st.fetcher.read_ids))
    let st := { st with fetcher := { st.fetcher with
      read_ids := st.fetcher.read_ids ++ part1.map (fun r : RepoRecord => r.id) } }
    let unique_projects_count : Int := part1.length
    let st := { st with fetcher := { st.fetcher with
      total_read := st.fetcher.total_read + unique_projects_count } }
    -- filter out projects without topics, then enhance, then filter out
    -- projects without readme
    let part2 := part1.filter (fun r => decide (r.topics.length > 0))
    let part3 ← enhance_repos_with_readme rf part2
    let part4 := part3.filter (fun r => decide (r.readme ≠ none))
    let st := { st with repos_data := st.repos_data ++ part4 }
    let u ← cursor_threshold_update st.fetcher.reset_counter st.more_than_stars
      last_stargazers_count st.next_cursor parsedCursor
    match u with
    | .halt => return .finished st
    | .advance rc stars cur =>
        return .again { st with
          fetcher := { st.fetcher with reset_counter := rc },
          more_than_stars := stars,
          next_cursor := some cur,
          gql := { search := starsSearch stars, first := PAGE_SIZE, after := cur } }

/-- Result of running the page loop with a given amount of fuel: the
function returned, or the fuel bound on loop iterations was reached with
the loop still running. -/
inductive RunOut where
  | done (st : LoopSt)
  | outOfFuel (st : LoopSt)
deriving DecidableEq

/-- The `while len(repos_data) < max_chunk_size` loop, fuel-bounded.
`fuel` bounds the number of iterations inspected; the source loop itself
has no such bound. -/
def read_loop (transport : Nat → JVal) (rf : JVal → Except PyErr (Option String))
    (max_chunk_size : Int) : Nat → LoopSt → Except PyErr RunOut
  | 0, st => .ok (.outOfFuel st)
  | fuel + 1, st =>
      if (st.repos_data.length : Int) < max_chunk_size then
        match read_step transport rf st with
        | .error e => .error e
        | .ok (.finished st') => .ok (.done st')
        | .ok (.again st') => read_loop transport rf max_chunk_size fuel st'
      else .ok (.done st)

/-- `DataFetcher.read_repos_data(max_chunk_size, more_than_stars,
start_cursor)` on an instance whose mutable state is `fetcher`.  Returns
the final loop state, whose `repos_data`, `next_cursor` and
`more_than_stars` fields are the function's return triple. -/
def read_repos_data (transport : Nat → JVal) (rf : JVal → Except PyErr (Option String))
    (fetcher : FetcherState) (max_chunk_size : Int) (more_than_stars : JVal)
    (start_cursor : Option String) (fuel : Nat) : Except PyErr RunOut :=
  let parsed_start_cursor := match start_cursor with
    | some s => s
    | none => "null"
  read_loop transport rf max_chunk_size fuel
    { fetcher := fetcher,
      repos_data := [],
      page := 0,
      next_cursor := start_cursor,
      more_than_stars := more_than_stars,
      gql := { search := starsSearch more_than_stars, first := PAGE_SIZE,
               after := parsed_start_cursor },
      calls := 0 }

/-- The final loop state of a run, when the function returned or the fuel
ran out; `none` when the run raised. -/
def runState : Except PyErr RunOut → Option LoopSt
  | .ok (.done st) => some st
  | .ok (.outOfFuel st) => some st
  | .error _ => none

/-- The final loop state of a run that returned normally. -/
def runDone : Except PyErr RunOut → Option LoopSt
  | .ok (.done st) => some st
  | _ => none

/-! ## The rate-limited transport (`Github` in github.py) -/

/-- One HTTP response as the code observes it: status code, headers and
decoded JSON body.  Header values are strings in a real `requests`
response; the `Option` models the `is None` checks the source performs on
them.  Header lookup is modelled as exact-key lookup (the source only
ever uses the canonical spellings). -/
structure HttpResponse where
  status_code : Int
  headers : List (String × Option String)
  body : JVal
deriving DecidableEq

/-- A low-level failure of `function(session)` before a response exists,
matching the two exception classes the source catches. -/
inductive NetFailure where
  | timeoutError
  | connectionError
deriving DecidableEq

/-- The log statements issued by `Github.__handle_response_errors`,
recorded so that claims about logging are statable. -/
inductive LogEvent where
  | errorNotFound
  | errorBadAuth
  | warnRateLimited
  | warnForbidden
  | warnFailedStatus (code : Int)
  | warnWaiting (seconds : Int)
deriving DecidableEq

/-- `response.headers[k]`: KeyError when the header is absent (requests
raises on a missing header key). -/
def headers_get (r : HttpResponse) (k : String) : Except PyErr (Option String) :=
  match r.headers.lookup k with
  | some v => .ok v
  | none => .error .keyError

/-- `Github.__has_errors`. -/
def has_errors (r : HttpResponse) : Bool :=
  decide (r.status_code ≥ 400)

/-- `Github.__is_rate_limited`: reads the X-RateLimit-Remaining header
(raising KeyError when it is absent), then
`False if remaining is None or int(remaining) > 0 else True`. -/
def is_rate_limited (r : HttpResponse) : Except PyErr Bool := do
  let remaining ← headers_get r "X-RateLimit-Remaining"
  match remaining with
  | none => return false
  | some s =>
      let n ← pyInt s
      if n > 0 then return false else return true

/-- `Github.__calculate_rate_limit_sleep_time`: reads the
X-RateLimit-Reset header (raising KeyError when absent), parses it with
`int` (raising ValueError when unparseable), and returns the difference
to the current time.  Time is modelled in whole seconds, so the source's
`round` is the identity; a header value of None yields zero because the
source substitutes the current timestamp. -/
def calculate_rate_limit_sleep_time (now : Int) (r : HttpResponse) :
    Except PyErr Int := do
  let resetStr ← headers_get r "X-RateLimit-Reset"
  match resetStr with
  | none => return 0
  | some s =>
      let t ← pyInt s
      return t - now

/-- `Github.__handle_response_errors`: classifies a failed response.
Returns the log events issued, the boolean the source returns (retry or
not), and the slept duration when the source reaches its final
`sleep(wait_time_seconds)` (after the `wait_time_seconds if
wait_time_seconds > 0 else 10` clamp); a 401 raises RuntimeError. -/
def handle_response_errors (now : Int) (r : HttpResponse) :
    Except PyErr (List LogEvent × Bool × Option Int) := do
  let status := r.status_code
  if status = 404 then
    return ([.errorNotFound], false, none)
  else if status = 401 then
    throw (.runtimeError "invalid bearer token")
  else if status = 403 then
    let rl ← is_rate_limited r
    if rl then
      let w ← calculate_rate_limit_sleep_time now r
      let wait := if w > 0 then w else 10
      return ([.warnRateLimited, .warnWaiting wait], true, some wait)
    else
      return ([.warnForbidden], false, none)
  else
    -- any other status keeps the default wait_time_seconds = 10, which the
    -- clamp leaves unchanged
    return ([.warnFailedStatus status, .warnWaiting 10], true, some 10)

/-- Python has no pre-increment operator: the source's `++retry_num` in
`Github._do_retry` parses as `+(+retry_num)`, the identity, and mutates
nothing. -/
def pyPreInc (n : Nat) : Nat := n

/-- The condition of `Github._do_retry`:
`should_retry and retry_num <= self.retries_limit`. -/
def do_retry_guard (retries_limit : Nat) (retry_num : Nat)
    (should_retry : Bool) : Bool :=
  should_retry && decide (retry_num ≤ retries_limit)

/-- Outcome of one logical transport call. -/
inductive TOutcome where
  | ok (v : JVal)
  | noResult
  | raised (e : PyErr)
  | outOfFuel
deriving DecidableEq

/-- `Github._with_session` together with `Github._do_retry`.  `attempt k`
is what the k-th HTTP attempt produces (a caught low-level failure or a
response); `nowAt k` is the clock at that attempt.  `fuel` bounds how many
attempts are inspected; the source has no such bound.  On a failed
response the handler may raise (propagating, since only TimeoutError and
ConnectionError are caught), else `_do_retry` recurses with
`++retry_num`, i.e. with `pyPreInc retry_num`, when its guard holds and
returns None (`noResult`) otherwise. -/
def with_session (retries_limit : Nat) (nowAt : Nat → Int)
    (attempt : Nat → NetFailure ⊕ HttpResponse) :
    Nat → Nat → Nat → TOutcome
  | 0, _, _ => .outOfFuel
  | fuel + 1, k, retry_num =>
      match attempt k with
      | .inl _ =>
          -- TimeoutError / ConnectionError branch: log, sleep 10 s, then
          -- `_do_retry(function, retry_num)` with should_retry defaulted True
          if do_retry_guard retries_limit retry_num true then
            with_session retries_limit nowAt attempt fuel (k + 1) (pyPreInc retry_num)
          else .noResult
      | .inr r =>
          if has_errors r then
            match handle_response_errors (nowAt k) r with
            | .error e => .raised e
            | .ok (_, should_retry, _) =>
                if do_retry_guard retries_limit retry_num should_retry then
                  with_session retries_limit nowAt attempt fuel (k + 1) (pyPreInc retry_num)
                else .noResult
          else .ok r.body

/-- `Github.get_readme`, given the value `github.get(...)` returned for
this repository (`JVal.null` models Python None, i.e. the transport's "no
result") and the composite `base64.b64decode(x).decode("utf-8")` of the
standard library, abstracted as `b64utf8` (it may raise on invalid
base64 or invalid UTF-8). -/
def get_readme (b64utf8 : String → Except PyErr String) (data : JVal) :
    Except PyErr (Option String) := do
  let base64_content ← if data ≠ JVal.null then jget data "content"
    else pure JVal.null
  match base64_content with
  | .null => return none
  | v =>
      let n ← pyLen v
      if n > 0 then
        match v with
        | .str s =>
            let txt ← b64utf8 s
            return some txt
        | _ => throw .typeError
      else return none

/-! ## Helper lemmas -/

@[simp] theorem exc_bind_ok {ε α β : Type} (a : α) (f : α → Except ε β) :
    (Except.ok a : Except ε α) >>= f = f a := rfl

@[simp] theorem exc_bind_err {ε α β : Type} (e : ε) (f : α → Except ε β) :
    (Except.error e : Except ε α) >>= f = .error e := rfl

@[simp] theorem exc_pure_eq {ε α : Type} (a : α) :
    (pure a : Except ε α) = .ok a := rfl

theorem jget_null (k : String) : jget JVal.null k = .error .typeError := rfl

/-- C6 counterexample: a response lacking the expected "data" key makes
`parse_gql_result` raise KeyError rather than return the empty page, so
the claim that missing fields always yield an empty sequence and an
absent cursor without raising is false; moreover the cursor value on the
genuinely absent-response path is the integer 0, not an absent (None)
cursor. -/
theorem parse_gql_result_missing_key_raises :
    parse_gql_result (.obj [("message", .str "oops")]) = .error .keyError
    ∧ parse_gql_result .null = .ok ([], .int 0) := by
  constructor <;> decide

/-- C6 (amended): `parse_gql_result` returns the empty sequence together
with the integer sentinel 0 as cursor — not the None used for terminal
pages — when the response is absent, when any of the checked fields
data / data.search / data.search.edges is present but null, or when the
edges collection is empty; a checked field that is altogether missing
raises instead (see the counterexample). -/
theorem parse_gql_result_empty_inputs :
    parse_gql_result .null = .ok ([], .int 0)
    ∧ (∀ res, jget res "data" = .ok .null →
        parse_gql_result res = .ok ([], .int 0))
    ∧ (∀ res d, jget res "data" = .ok d → jget d "search" = .ok .null →
        parse_gql_result res = .ok ([], .int 0))
    ∧ (∀ res d s, jget res "data" = .ok d → jget d "search" = .ok s →
        jget s "edges" = .ok .null →
        parse_gql_result res = .ok ([], .int 0))
    ∧ (∀ res d s e, jget res "data" = .ok d → jget d "search" = .ok s →
        jget s "edges" = .ok e → pyLen e = .ok 0 →
        parse_gql_result res = .ok ([], .int 0)) := by
  have hnn : ∀ res d, jget res "data" = .ok d → res ≠ JVal.null := by
    intro res d h heq
    rw [heq] at h
    simp [jget] at h
  refine ⟨by decide, ?_, ?_, ?_, ?_⟩
  · intro res h
    simp [parse_gql_result, hnn res _ h, h]
  · intro res d hd hs
    by_cases hdn : d = JVal.null
    · subst hdn
      simp [parse_gql_result, hnn res _ hd, hd]
    · simp [parse_gql_result, hnn res _ hd, hd, hdn, hs]
  · intro res d s hd hs he
    by_cases hdn : d = JVal.null
    · subst hdn
      simp [parse_gql_result, hnn res _ hd, hd]
    · by_cases hsn : s = JVal.null
      · subst hsn
        simp [parse_gql_result, hnn res _ hd, hd, hdn, hs]
      · simp [parse_gql_result, hnn res _ hd, hd, hdn, hs, hsn, he]
  · intro res d s e hd hs he hlen
    by_cases hdn : d = JVal.null
    · subst hdn
      simp [parse_gql_result, hnn res _ hd, hd]
    · by_cases hsn : s = JVal.null
      · subst hsn
        simp [parse_gql_result, hnn res _ hd, hd, hdn, hs]
      · by_cases hen : e = JVal.null
        · subst hen
          simp [parse_gql_result, hnn res _ hd, hd, hdn, hs, hsn, he]
        · simp [parse_gql_result, hnn res _ hd, hd, hdn, hs, hsn, he, hen, hlen]

/-- Witness for the C6 theorem at a concrete page whose edges list is
present but empty. -/
theorem parse_gql_result_empty_inputs_witness :
    parse_gql_result
      (.obj [("data", .obj [("search", .obj [("edges", .arr [])])])])
      = .ok ([], .int 0) :=
  parse_gql_result_empty_inputs.2.2.2.2
    (.obj [("data", .obj [("search", .obj [("edges", .arr [])])])])
    (.obj [("search", .obj [("edges", .arr [])])])
    (.obj [("edges", .arr [])])
    (.arr [])
    (by decide) (by decide) (by decide) (by decide)

/-- A nonempty string has a positive Python length. -/
theorem string_ne_length_pos (s : String) (h : s ≠ "") : 0 < s.length := by
  cases s with
  | mk l =>
      cases l with
      | nil => exact absurd rfl h
      | cons c cs => simp [String.length]

/-- C9 counterexample: a readme response whose JSON lacks the "content"
key makes `get_readme` raise KeyError instead of treating the readme as
absent. -/
theorem get_readme_missing_content_raises :
    get_readme (fun s => .ok s) (.obj [("message", .str "Not Found")])
      = .error .keyError := by
  decide

/-- C9 (amended): `get_readme` yields an absent readme, without raising,
when the transport returned no result or when the content field is null
or the empty string; when the content is a nonempty string it returns the
base64/UTF-8 decode of it (propagating any decode failure); a response
whose "content" key is missing altogether raises KeyError instead (see
the counterexample).  The enricher stores the fetched value in the
record's readme field. -/
theorem get_readme_amended (b64utf8 : String → Except PyErr String) :
    get_readme b64utf8 .null = .ok none
    ∧ (∀ data, jget data "content" = .ok .null →
        get_readme b64utf8 data = .ok none)
    ∧ (∀ data, jget data "content" = .ok (.str "") →
        get_readme b64utf8 data = .ok none)
    ∧ (∀ data s, jget data "content" = .ok (.str s) → s ≠ "" →
        get_readme b64utf8 data = (b64utf8 s).map some)
    ∧ (∀ (rf : JVal → Except PyErr (Option String)) (r : RepoRecord)
        (o : Option String), rf r.name_with_owner = .ok o →
        enhance_repos_with_readme rf [r] = .ok [{ r with readme := o }]) := by
  have hnn : ∀ data v, jget data "content" = .ok v → data ≠ JVal.null := by
    intro data v h heq
    rw [heq] at h
    simp [jget] at h
  refine ⟨by simp [get_readme], ?_, ?_, ?_, ?_⟩
  · intro data h
    simp [get_readme, hnn data _ h, h]
  · intro data h
    simp [get_readme, hnn data _ h, h, pyLen]
  · intro data s h hne
    have hpos : 0 < s.length := string_ne_length_pos s hne
    have hsn : JVal.str s ≠ JVal.null := by simp
    simp only [get_readme, hnn data _ h, ne_eq, not_false_iff, if_true, h,
      exc_bind_ok]
    have : (JVal.str s : JVal) ≠ JVal.null := by simp
    simp only [pyLen, exc_bind_ok]
    rw [if_pos (by exact_mod_cast hpos)]
    cases hb : b64utf8 s <;> simp [Except.map, hb]
  · intro rf r o h
    simp [enhance_repos_with_readme, h]

/-- Witness for the C9 theorem: a present nonempty content field decodes,
and the enricher attaches the fetched value. -/
theorem get_readme_amended_witness :
    get_readme (fun s => .ok s) (.obj [("content", .str "QUJD")])
      = .ok (some "QUJD")
    ∧ enhance_repos_with_readme (fun _ => .ok (some "R")) [default]
      = .ok [{ (default : RepoRecord) with readme := some "R" }] := by
  constructor
  · exact (get_readme_amended (fun s => .ok s)).2.2.2.1
      (.obj [("content", .str "QUJD")]) "QUJD" (by decide) (by decide)
  · exact (get_readme_amended (fun s => .ok s)).2.2.2.2
      (fun _ => .ok (some "R")) default (some "R") rfl

/-- A 403 response carrying no rate-limit headers at all. -/
def resp403_no_headers : HttpResponse :=
  { status_code := 403, headers := [], body := .null }

/-- C7 counterexample: a 403 with no X-RateLimit-Remaining header (hence
no zero-remaining signal) makes the transport raise KeyError out of
`__is_rate_limited` instead of logging and returning no result. -/
theorem forbidden_without_header_raises :
    with_session 5 (fun _ => 0) (fun _ => .inr resp403_no_headers) 1 0 0
      = .raised .keyError := by
  decide

/-- C7 (amended): for a 403 whose X-RateLimit-Remaining header is present
and is either None or parses to a positive integer, the handler logs the
permission denial and returns False (no retry), and the transport call
returns no result (None) without raising — regardless of the remaining
fuel, the retry counter, and later responses.  A 403 with the header
absent raises KeyError instead (see the counterexample). -/
theorem forbidden_nonquota_no_retry (retries_limit : Nat) (nowAt : Nat → Int)
    (attempt : Nat → NetFailure ⊕ HttpResponse) (fuel k retry_num : Nat)
    (r : HttpResponse) (v : Option String)
    (hk : attempt k = .inr r) (hs : r.status_code = 403)
    (hv : headers_get r "X-RateLimit-Remaining" = .ok v)
    (hnq : v = none ∨ ∃ s n, v = some s ∧ pyInt s = .ok n ∧ 0 < n) :
    handle_response_errors (nowAt k) r = .ok ([.warnForbidden], false, none)
    ∧ with_session retries_limit nowAt attempt (fuel + 1) k retry_num
      = .noResult := by
  have hrl : is_rate_limited r = .ok false := by
    rcases hnq with h | ⟨s, n, hv2, hp, hpos⟩
    · subst h
      simp [is_rate_limited, hv]
    · subst hv2
      simp [is_rate_limited, hv, hp, if_pos hpos]
  have hh : handle_response_errors (nowAt k) r
      = .ok ([.warnForbidden], false, none) := by
    simp [handle_response_errors, hs, hrl]
  refine ⟨hh, ?_⟩
  simp [with_session, hk, has_errors, hs, hh, do_retry_guard]

/-- A 403 whose quota headers show remaining requests. -/
def resp403_quota_left : HttpResponse :=
  { status_code := 403, headers := [("X-RateLimit-Remaining", some "42")],
    body := .null }

/-- Witness for the C7 theorem. -/
theorem forbidden_nonquota_no_retry_witness :
    handle_response_errors 0 resp403_quota_left
      = .ok ([.warnForbidden], false, none)
    ∧ with_session 5 (fun _ => 0) (fun _ => .inr resp403_quota_left) 1 0 0
      = .noResult :=
  forbidden_nonquota_no_retry 5 (fun _ => 0) (fun _ => .inr resp403_quota_left)
    0 0 0 resp403_quota_left (some "42") rfl rfl (by decide)
    (Or.inr ⟨"42", 42, rfl, by decide, by decide⟩)

/-- A rate-limited 403 whose reset header is not a parseable integer. -/
def resp403_reset_unparseable : HttpResponse :=
  { status_code := 403,
    headers := [("X-RateLimit-Remaining", some "0"),
                ("X-RateLimit-Reset", some "soon")],
    body := .null }

/-- C8 counterexample: a rate-limited 403 whose X-RateLimit-Reset header
is unparseable makes the handler raise ValueError out of `int(...)`
instead of clamping the sleep to the 10s default. -/
theorem rate_limit_unparseable_reset_raises :
    handle_response_errors 1000 resp403_reset_unparseable = .error .valueError
    ∧ with_session 5 (fun _ => 1000) (fun _ => .inr resp403_reset_unparseable)
      1 0 0 = .raised .valueError := by
  constructor <;> decide

/-- C8 (amended): for a rate-limited 403 (remaining header parses to a
non-positive count), the slept duration is exactly `reset - now` when the
reset header parses to an integer and the difference is positive; it is
the 10s default when the difference is non-positive or when the header
value is None; a missing or unparseable reset header raises
KeyError/ValueError instead (see the counterexample). -/
theorem rate_limit_sleep_amended (now : Int) (r : HttpResponse) (s0 : String)
    (n0 : Int) (hs : r.status_code = 403)
    (hrem : headers_get r "X-RateLimit-Remaining" = .ok (some s0))
    (hn0 : pyInt s0 = .ok n0) (hq : ¬ 0 < n0) :
    (∀ s t, headers_get r "X-RateLimit-Reset" = .ok (some s) →
      pyInt s = .ok t → 0 < t - now →
      handle_response_errors now r
        = .ok ([.warnRateLimited, .warnWaiting (t - now)], true, some (t - now)))
    ∧ (∀ s t, headers_get r "X-RateLimit-Reset" = .ok (some s) →
      pyInt s = .ok t → ¬ 0 < t - now →
      handle_response_errors now r
        = .ok ([.warnRateLimited, .warnWaiting 10], true, some 10))
    ∧ (headers_get r "X-RateLimit-Reset" = .ok none →
      handle_response_errors now r
        = .ok ([.warnRateLimited, .warnWaiting 10], true, some 10)) := by
  have hrl : is_rate_limited r = .ok true := by
    simp [is_rate_limited, hrem, hn0, if_neg hq]
  refine ⟨?_, ?_, ?_⟩
  · intro s t hreset hp hpos
    have hc : calculate_rate_limit_sleep_time now r = .ok (t - now) := by
      simp [calculate_rate_limit_sleep_time, hreset, hp]
    simp [handle_response_errors, hs, hrl, hc]
    omega
  · intro s t hreset hp hneg
    have hc : calculate_rate_limit_sleep_time now r = .ok (t - now) := by
      simp [calculate_rate_limit_sleep_time, hreset, hp]
    simp [handle_response_errors, hs, hrl, hc]
    omega
  · intro hreset
    have hc : calculate_rate_limit_sleep_time now r = .ok 0 := by
      simp [calculate_rate_limit_sleep_time, hreset]
    simp [handle_response_errors, hs, hrl, hc]

/-- A rate-limited 403 whose reset timestamp is five seconds from the
modelled current time 1000. -/
def resp403_rate_limited : HttpResponse :=
  { status_code := 403,
    headers := [("X-RateLimit-Remaining", some "0"),
                ("X-RateLimit-Reset", some "1005")],
    body := .null }

/-- Witness for the C8 theorem: with reset = now + 5 the observed wait is
5 seconds, not the 10 second default. -/
theorem rate_limit_sleep_amended_witness :
    handle_response_errors 1000 resp403_rate_limited
      = .ok ([.warnRateLimited, .warnWaiting 5], true, some 5) := by
  have h := (rate_limit_sleep_amended 1000 resp403_rate_limited "0" 0
      (by decide) (by decide) (by decide) (by decide)).1 "1005" 1005
      (by decide) (by decide) (by decide)
  simpa using h

/-- A response that fails with a retryable server error. -/
def resp500 : HttpResponse :=
  { status_code := 500, headers := [], body := .null }

/-- C3: against an endpoint failing every attempt with a retryable
status, the retry machinery never terminates: for every fuel bound the
call is still retrying, because `++retry_num` in `_do_retry` is the
identity, so the retry counter stays at 0 and the `retry_num <=
retries_limit` cap is never exceeded.  In particular the call never
returns the claimed "no result" after 5 attempts. -/
theorem retry_counter_never_advances (fuel k : Nat) :
    with_session 5 (fun _ => 0) (fun _ => .inr resp500) fuel k 0
      = .outOfFuel := by
  induction fuel generalizing k with
  | zero => rfl
  | succ n ih => exact ih (k + 1)

/-- C4: the reset policy of the cursor/threshold update at the bottom of
the page loop.  When the reset counter (decremented by each page's raw
pre-filter record count in `read_step`) is zero or below, the counter is
reset to `MAX_ITEMS_PER_QUERY` = 1000, `more_than_stars` advances to the
last record's star count — or to `more_than_stars + 1` when both are equal
— and the cursor restarts at the "null" start literal; the advanced value
always differs from the previous one.  Otherwise, when the current cursor
is set, the loop continues with the parser's returned cursor value,
interpolated between double quotes. -/
theorem cursor_threshold_reset_policy (rc : Int) (m : Int) (last pcur : JVal)
    (cur : Option String) :
    (rc ≤ 0 →
      cursor_threshold_update rc (.int m) last cur pcur
        = .ok (.advance MAX_ITEMS_PER_QUERY
            (if (JVal.int m : JVal) ≠ last then last else .int (m + 1)) "null")
      ∧ (if (JVal.int m : JVal) ≠ last then last else .int (m + 1)) ≠ .int m)
    ∧ (0 < rc → ∀ c, cur = some c →
      cursor_threshold_update rc (.int m) last cur pcur
        = .ok (.advance rc (.int m) ("\"" ++ pyFormat pcur ++ "\""))) := by
  constructor
  · intro hle
    constructor
    · by_cases hne : (JVal.int m : JVal) ≠ last
      · simp [cursor_threshold_update, if_pos hle, hne]
      · simp only [ne_eq, not_not] at hne
        simp [cursor_threshold_update, if_pos hle, hne, pyAddOne]
    · by_cases hne : (JVal.int m : JVal) ≠ last
      · simp only [if_pos hne]
        exact fun h => hne (h ▸ rfl)
      · simp only [if_neg hne]
        intro h
        have : m + 1 = m := by injection h
        omega
  · intro hpos c hc
    subst hc
    have : ¬ rc ≤ 0 := by omega
    simp [cursor_threshold_update, this]

/-- Witness for the C4 theorem: a plateau reset (star count unchanged, so
the threshold advances by one) and an ordinary continuation. -/
theorem cursor_threshold_reset_policy_witness :
    cursor_threshold_update 0 (.int 300) (.int 300) (some "\"abc\"") (.str "c")
      = .ok (.advance 1000 (.int 301) "null")
    ∧ cursor_threshold_update 5 (.int 300) (.int 350) (some "\"abc\"") (.str "c2")
      = .ok (.advance 5 (.int 300) "\"c2\"") := by
  constructor
  · have h := (cursor_threshold_reset_policy 0 300 (.int 300) (.str "c")
      (some "\"abc\"")).1 (by omega)
    simpa using h.1
  · have h := (cursor_threshold_reset_policy 5 300 (.int 350) (.str "c2")
      (some "\"abc\"")).2 (by omega) "\"abc\"" rfl
    simpa using h

/-- Helper: an update step with a positive reset counter and no current
cursor hits the `break` branch. -/
theorem cursor_update_halt (rc : Int) (mts last pcur : JVal) (h : ¬ rc ≤ 0) :
    cursor_threshold_update rc mts last none pcur = .ok .halt := by
  simp [cursor_threshold_update, h]

/-- Helper: an update step with a positive reset counter and a set cursor
continues with the parser's cursor value between double quotes. -/
theorem cursor_update_continue (rc : Int) (mts last pcur : JVal) (c : String)
    (h : ¬ rc ≤ 0) :
    cursor_threshold_update rc mts last (some c) pcur
      = .ok (.advance rc mts ("\"" ++ pyFormat pcur ++ "\"")) := by
  simp [cursor_threshold_update, h]

/-- Helper: a readme fetcher that never raises makes enrichment total. -/
theorem enhance_ok_of_total (rf : JVal → Except PyErr (Option String))
    (hrf : ∀ v, ∃ o, rf v = .ok o) (l : List RepoRecord) :
    ∃ l', enhance_repos_with_readme rf l = .ok l' := by
  induction l with
  | nil => exact ⟨[], rfl⟩
  | cons r rs ih =>
      obtain ⟨o, ho⟩ := hrf r.name_with_owner
      obtain ⟨l', hl'⟩ := ih
      exact ⟨{ r with readme := o } :: l',
        by simp [enhance_repos_with_readme, ho, hl']⟩

/-- The state changes of one page-loop iteration that happen before the
cursor/threshold update, as a function of the parsed page `recs` and the
enriched survivors `part3`. -/
def step_base (st : LoopSt) (recs : List RepoRecord) (part3 : List RepoRecord) :
    LoopSt :=
  let part1 := recs.filter (fun r => decide (r.id ∉ st.fetcher.read_ids))
  { st with
    fetcher := { total_read := st.fetcher.total_read + (part1.length : Int),
                 reset_counter := st.fetcher.reset_counter - (recs.length : Int),
                 read_ids := st.fetcher.read_ids ++ part1.map (fun r => r.id) },
    repos_data := st.repos_data
      ++ part3.filter (fun r => decide (r.readme ≠ none)),
    page := st.page + 1,
    calls := st.calls + 1 }

/-- How the cursor/threshold update outcome finishes one iteration. -/
def step_apply (st : LoopSt) (recs part3 : List RepoRecord) :
    CursorUpdate → StepRes
  | .halt => .finished (step_base st recs part3)
  | .advance rc stars cur =>
      .again { step_base st recs part3 with
        fetcher := { (step_base st recs part3).fetcher with
          reset_counter := rc },
        more_than_stars := stars,
        next_cursor := some cur,
        gql := { search := starsSearch stars, first := PAGE_SIZE, after := cur } }

/-- One iteration on a page that parses to an empty sequence: the loop
breaks with the state otherwise untouched. -/
theorem read_step_empty (transport : Nat → JVal)
    (rf : JVal → Except PyErr (Option String)) (st : LoopSt) (pcur : JVal)
    (hparse : parse_gql_result (transport st.calls) = .ok ([], pcur)) :
    read_step transport rf st
      = .ok (.finished { st with page := st.page + 1, calls := st.calls + 1 }) := by
  simp [read_step, hparse]

/-- One iteration on a nonempty parsed page, given the enrichment result
for the deduplicated, topic-filtered records: the iteration is the
cursor/threshold update applied by `step_apply` to the pre-update state
changes. -/
theorem read_step_eq (transport : Nat → JVal)
    (rf : JVal → Except PyErr (Option String)) (st : LoopSt)
    (recs part3 : List RepoRecord) (pcur : JVal)
    (hparse : parse_gql_result (transport st.calls) = .ok (recs, pcur))
    (hne : recs ≠ [])
    (henh : enhance_repos_with_readme rf
      ((recs.filter (fun r => decide (r.id ∉ st.fetcher.read_ids))).filter
        (fun r => decide (r.topics.length > 0))) = .ok part3) :
    read_step transport rf st
      = (cursor_threshold_update (st.fetcher.reset_counter - (recs.length : Int))
          st.more_than_stars ((recs.getLastD default).stargazers_count)
          st.next_cursor pcur).map (step_apply st recs part3) := by
  have hlen : ¬ recs.length = 0 := by
    simpa using hne
  simp only [read_step, hparse, exc_bind_ok, hlen, if_false, ite_false,
    if_neg hlen, henh, step_apply, step_base]
  cases hcu : cursor_threshold_update (st.fetcher.reset_counter - (recs.length : Int))
      st.more_than_stars ((recs.getLastD default).stargazers_count)
      st.next_cursor pcur with
  | error e => simp [Except.map]
  | ok u =>
      cases u with
      | halt => simp [Except.map, step_apply, step_base]
      | advance rc stars cur => simp [Except.map, step_apply, step_base]

/-- C10: calling `read_repos_data` with the default `start_cursor = None`
stops after a single page whenever that page parses to a positive record
count smaller than the instance's reset counter: the cursor update falls
through to the `next_cursor is None` branch and breaks, even though fewer
than `max_chunk_size` records are accumulated and regardless of the
cursor the parser returned.  The returned cursor is absent and exactly
one transport query was issued. -/
theorem none_start_cursor_single_page (transport : Nat → JVal)
    (rf : JVal → Except PyErr (Option String)) (fetcher : FetcherState)
    (mcs : Int) (mts : JVal) (recs : List RepoRecord) (pcur : JVal) (fuel : Nat)
    (hparse : parse_gql_result (transport 0) = .ok (recs, pcur))
    (hne : recs ≠ [])
    (hlt : (recs.length : Int) < fetcher.reset_counter)
    (hmcs : 0 < mcs)
    (hrf : ∀ v, ∃ o, rf v = .ok o) :
    ∃ st, read_repos_data transport rf fetcher mcs mts none (fuel + 1)
        = .ok (.done st)
      ∧ st.next_cursor = none ∧ st.calls = 1 := by
  obtain ⟨part3, hpart3⟩ := enhance_ok_of_total rf hrf
    ((recs.filter (fun r => decide (r.id ∉ fetcher.read_ids))).filter
      (fun r => decide (r.topics.length > 0)))
  have hupd : ¬ (fetcher.reset_counter - (recs.length : Int) ≤ 0) := by omega
  refine ⟨step_base
      { fetcher := fetcher, repos_data := [], page := 0, next_cursor := none,
        more_than_stars := mts,
        gql := { search := starsSearch mts, first := PAGE_SIZE, after := "null" },
        calls := 0 } recs part3, ?_, ?_, ?_⟩
  · unfold read_repos_data
    simp only [read_loop]
    rw [if_pos (by simpa using hmcs)]
    rw [read_step_eq transport rf _ recs part3 pcur hparse hne hpart3]
    rw [cursor_update_halt _ _ _ _ hupd]
    rfl
  · rfl
  · rfl

/-- A concrete GraphQL edge for test scenarios: one repository node with
identifier k, star count 300 + k, one topic and an empty language list. -/
def mkNode (k : Int) : JVal :=
  .obj [("node", .obj [
    ("id", .int k),
    ("name", .str "n"),
    ("nameWithOwner", .int k),
    ("url", .str "u"),
    ("stargazerCount", .int (300 + k)),
    ("forkCount", .int 1),
    ("description", .null),
    ("repositoryTopics", .obj [("nodes", .arr [
        .obj [("topic", .obj [("name", .str "t"),
                              ("stargazerCount", .int 5)])]])]),
    ("languages", .obj [("nodes", .arr [])]),
    ("primaryLanguage", .null)])]

/-- The record `parse_gql_result` builds from `mkNode k`. -/
def mkRecord (k : Int) : RepoRecord :=
  { id := .int k, name := .str "n", name_with_owner := .int k,
    stargazers_count := .int (300 + k), fork_count := .int 1,
    primary_language := .null, languages := [], html_url := .str "u",
    topics := [.str "t"], description := .null }

/-- A concrete page of n edges with identifiers base .. base + n - 1 and
the given page-info cursors. -/
def mkPage (base : Int) (n : Nat) (sc ec : String) : JVal :=
  .obj [("data", .obj [("search", .obj [
    ("pageInfo", .obj [("startCursor", .str sc), ("endCursor", .str ec)]),
    ("edges", .arr ((List.range n).map (fun i => mkNode (base + i))))])])]

/-- The records `parse_gql_result` builds from `mkPage base n`. -/
def mkRecords (base : Int) (n : Nat) : List RepoRecord :=
  (List.range n).map (fun i => mkRecord (base + i))

/-- A readme fetcher that always succeeds with the same text. -/
def alwaysReadme : JVal → Except PyErr (Option String) :=
  fun _ => .ok (some "R")

/-- A transport producing one single-record page, then nothing. -/
def w10transport : Nat → JVal :=
  fun k => if k = 0 then mkPage 0 1 "A" "B" else .null

/-- Witness for the C10 theorem: one page of one record, reset counter at
its initial 1000, chunk size 50; the run returns after one query with an
absent cursor. -/
theorem none_start_cursor_single_page_witness :
    (runDone (read_repos_data w10transport alwaysReadme DataFetcher_init 50
        (.int 300) none 5)).map (fun st => (st.next_cursor, st.calls))
      = some (none, 1) := by
  obtain ⟨st, h1, h2, h3⟩ := none_start_cursor_single_page w10transport
    alwaysReadme DataFetcher_init 50 (.int 300) (mkRecords 0 1) (.str "B") 4
    (by decide) (by decide) (by decide) (by decide)
    (fun v => ⟨some "R", rfl⟩)
  rw [h1]
  simp [runDone, h2, h3]

/-- A transport producing one terminal page (equal start and end cursor),
then nothing. -/
def c2transport : Nat → JVal :=
  fun k => if k = 0 then mkPage 0 1 "C" "C" else .null


/-- Helper: unfold one continuing loop iteration. -/
theorem read_loop_cons (transport : Nat → JVal)
    (rf : JVal → Except PyErr (Option String)) (mcs : Int) (fuel : Nat)
    (st st' : LoopSt) (hcond : (st.repos_data.length : Int) < mcs)
    (hstep : read_step transport rf st = .ok (.again st')) :
    read_loop transport rf mcs (fuel + 1) st
      = read_loop transport rf mcs fuel st' := by
  simp only [read_loop, if_pos hcond, hstep]

/-- Helper: unfold one finishing loop iteration. -/
theorem read_loop_finish (transport : Nat → JVal)
    (rf : JVal → Except PyErr (Option String)) (mcs : Int) (fuel : Nat)
    (st st' : LoopSt) (hcond : (st.repos_data.length : Int) < mcs)
    (hstep : read_step transport rf st = .ok (.finished st')) :
    read_loop transport rf mcs (fuel + 1) st = .ok (.done st') := by
  simp only [read_loop, if_pos hcond, hstep]

/-- Helper: the loop returns at once when the chunk target is reached. -/
theorem read_loop_stop (transport : Nat → JVal)
    (rf : JVal → Except PyErr (Option String)) (mcs : Int) (fuel : Nat)
    (st : LoopSt) (hcond : ¬ (st.repos_data.length : Int) < mcs) :
    read_loop transport rf mcs (fuel + 1) st = .ok (.done st) := by
  simp only [read_loop, if_neg hcond]

/-- C2: with the current cursor set, a terminal page (equal start and end
cursors, so the parser returns None as next cursor) does not terminate
the page loop: the `elif next_cursor is not None` branch interpolates the
parser's None into the literal cursor string "None" (in quotes), rebuilds
the query with it, and issues another transport call; the function then
returns that string, not an absent cursor.  Here the second call returns
no data, so the loop breaks there, with two transport calls issued in
total. -/
theorem terminal_page_requeries_with_none_string :
    read_repos_data c2transport alwaysReadme DataFetcher_init 10 (.int 300)
        (some "\"abc\"") 3
      = .ok (.done
        { fetcher := { total_read := 1, reset_counter := 999,
                       read_ids := [.int 0] },
          repos_data := [{ mkRecord 0 with readme := some "R" }],
          page := 2,
          next_cursor := some "\"None\"",
          more_than_stars := .int 300,
          gql := { search := "stars:>300", first := 100, after := "\"None\"" },
          calls := 2 }) := by
  have h1 : read_step c2transport alwaysReadme
      { fetcher := DataFetcher_init, repos_data := [], page := 0,
        next_cursor := some "\"abc\"", more_than_stars := .int 300,
        gql := { search := starsSearch (.int 300), first := PAGE_SIZE,
                 after := "\"abc\"" },
        calls := 0 }
      = .ok (.again
        { fetcher := { total_read := 1, reset_counter := 999,
                       read_ids := [.int 0] },
          repos_data := [{ mkRecord 0 with readme := some "R" }],
          page := 1,
          next_cursor := some "\"None\"",
          more_than_stars := .int 300,
          gql := { search := "stars:>300", first := 100, after := "\"None\"" },
          calls := 1 }) := by decide
  have h2 : read_step c2transport alwaysReadme
      { fetcher := { total_read := 1, reset_counter := 999,
                     read_ids := [.int 0] },
        repos_data := [{ mkRecord 0 with readme := some "R" }],
        page := 1,
        next_cursor := some "\"None\"",
        more_than_stars := .int 300,
        gql := { search := "stars:>300", first := 100, after := "\"None\"" },
        calls := 1 }
      = .ok (.finished
        { fetcher := { total_read := 1, reset_counter := 999,
                       read_ids := [.int 0] },
          repos_data := [{ mkRecord 0 with readme := some "R" }],
          page := 2,
          next_cursor := some "\"None\"",
          more_than_stars := .int 300,
          gql := { search := "stars:>300", first := 100, after := "\"None\"" },
          calls := 2 }) := by decide
  show read_loop c2transport alwaysReadme 10 3 _ = _
  rw [show (3 : Nat) = 1 + 1 + 1 from rfl,
      read_loop_cons _ _ _ _ _ _ (by decide) h1,
      read_loop_finish _ _ _ _ _ _ (by decide) h2]

/-- A transport producing two 100-record pages with fresh identifiers and
distinct page-info cursors, then nothing. -/
def c1transport : Nat → JVal :=
  fun k => if k = 0 then mkPage 0 100 "A1" "B1"
    else if k = 1 then mkPage 100 100 "A2" "B2" else .null

/-- The records of a page after enrichment with the constant readme. -/
def readmeAll (l : List RepoRecord) : List RepoRecord :=
  l.map (fun r => { r with readme := some "R" })

set_option maxHeartbeats 4000000 in
set_option maxRecDepth 40000 in
/-- C1 counterexample: with `max_chunk_size = 150`, a fresh fetcher, a set
start cursor and two pages of 100 records each (all with a topic, a
readme and fresh identifiers), `read_repos_data` returns 200 records —
the loop only checks the chunk target between pages — not exactly 150;
the continuation cursor is present. -/
theorem chunk150_two_pages_returns_200 :
    (runDone (read_repos_data c1transport alwaysReadme DataFetcher_init 150
        (.int 300) (some "\"start\"") 3)).map
      (fun st => (st.repos_data.length, st.next_cursor))
      = some (200, some "\"B2\"") := by
  have h1 : read_step c1transport alwaysReadme
      { fetcher := DataFetcher_init, repos_data := [], page := 0,
        next_cursor := some "\"start\"", more_than_stars := .int 300,
        gql := { search := starsSearch (.int 300), first := PAGE_SIZE,
                 after := "\"start\"" },
        calls := 0 }
      = .ok (.again
      { fetcher := { total_read := 100, reset_counter := 900,
                     read_ids := (mkRecords 0 100).map (fun r => r.id) },
        repos_data := readmeAll (mkRecords 0 100),
        page := 1,
        next_cursor := some "\"B1\"",
        more_than_stars := .int 300,
        gql := { search := "stars:>300", first := 100, after := "\"B1\"" },
        calls := 1 }) := by decide
  have h2 : read_step c1transport alwaysReadme
      { fetcher := { total_read := 100, reset_counter := 900,
                     read_ids := (mkRecords 0 100).map (fun r => r.id) },
        repos_data := readmeAll (mkRecords 0 100),
        page := 1,
        next_cursor := some "\"B1\"",
        more_than_stars := .int 300,
        gql := { search := "stars:>300", first := 100, after := "\"B1\"" },
        calls := 1 }
      = .ok (.again
      { fetcher := { total_read := 200, reset_counter := 800,
                     read_ids := (mkRecords 0 100).map (fun r => r.id)
                       ++ (mkRecords 100 100).map (fun r => r.id) },
        repos_data := readmeAll (mkRecords 0 100)
          ++ readmeAll (mkRecords 100 100),
        page := 2,
        next_cursor := some "\"B2\"",
        more_than_stars := .int 300,
        gql := { search := "stars:>300", first := 100, after := "\"B2\"" },
        calls := 2 }) := by decide
  have hrun : read_repos_data c1transport alwaysReadme DataFetcher_init 150
      (.int 300) (some "\"start\"") 3
      = .ok (.done
      { fetcher := { total_read := 200, reset_counter := 800,
                     read_ids := (mkRecords 0 100).map (fun r => r.id)
                       ++ (mkRecords 100 100).map (fun r => r.id) },
        repos_data := readmeAll (mkRecords 0 100)
          ++ readmeAll (mkRecords 100 100),
        page := 2,
        next_cursor := some "\"B2\"",
        more_than_stars := .int 300,
        gql := { search := "stars:>300", first := 100, after := "\"B2\"" },
        calls := 2 }) := by
    show read_loop c1transport alwaysReadme 150 (1 + 1 + 1) _ = _
    rw [read_loop_cons _ _ _ _ _ _ (by decide) h1,
        read_loop_cons _ _ _ _ _ _ (by decide) h2,
        read_loop_stop _ _ _ _ _ (by decide)]
  rw [hrun]
  simp only [runDone, Option.map_some]
  decide

/-- Helper: the dedup filter keeps every record whose identifier is not
among the given seen identifiers. -/
theorem filter_notin_of (l : List RepoRecord) (ids : List JVal)
    (h : ∀ r ∈ l, r.id ∉ ids) :
    l.filter (fun r => decide (r.id ∉ ids)) = l := by
  rw [List.filter_eq_self]
  intro r hr
  simpa using h r hr

/-- Helper: the topic filter keeps every record with a nonempty topic
list. -/
theorem filter_topics_of (l : List RepoRecord)
    (h : ∀ r ∈ l, r.topics ≠ []) :
    l.filter (fun r => decide (r.topics.length > 0)) = l := by
  rw [List.filter_eq_self]
  intro r hr
  have := h r hr
  simp only [decide_eq_true_eq, gt_iff_lt, List.length_pos]
  exact this

/-- Helper: when the readme fetcher succeeds with a present readme on
every record of a list, enrichment succeeds, preserves length and
identifiers, and every enriched record passes the readme filter. -/
theorem enhance_pointwise (rf : JVal → Except PyErr (Option String))
    (l : List RepoRecord)
    (h : ∀ r ∈ l, ∃ s, rf r.name_with_owner = .ok (some s)) :
    ∃ l', enhance_repos_with_readme rf l = .ok l'
      ∧ l'.length = l.length
      ∧ l'.filter (fun r => decide (r.readme ≠ none)) = l'
      ∧ l'.map (fun r => r.id) = l.map (fun r => r.id) := by
  induction l with
  | nil => exact ⟨[], rfl, rfl, rfl, rfl⟩
  | cons r rs ih =>
      obtain ⟨s, hs⟩ := h r (List.mem_cons_self r rs)
      obtain ⟨l', h1, h2, h3, h4⟩ := ih (fun x hx => h x (List.mem_cons_of_mem r hx))
      refine ⟨{ r with readme := some s } :: l', ?_, ?_, ?_, ?_⟩
      · simp [enhance_repos_with_readme, hs, h1]
      · simp [h2]
      · simp only [List.filter_cons]
        rw [if_pos (by simp)]
        rw [h3]
      · simp [h4]

/-- Helper: one full page-loop iteration that continues: nonempty parsed
page, positive remaining reset counter, current cursor set. -/
theorem read_step_continue (transport : Nat → JVal)
    (rf : JVal → Except PyErr (Option String)) (st : LoopSt)
    (recs part3 : List RepoRecord) (pcur : JVal) (c : String)
    (hparse : parse_gql_result (transport st.calls) = .ok (recs, pcur))
    (hne : recs ≠ [])
    (henh : enhance_repos_with_readme rf
      ((recs.filter (fun r => decide (r.id ∉ st.fetcher.read_ids))).filter
        (fun r => decide (r.topics.length > 0))) = .ok part3)
    (hrc : ¬ st.fetcher.reset_counter - (recs.length : Int) ≤ 0)
    (hcur : st.next_cursor = some c) :
    read_step transport rf st
      = .ok (step_apply st recs part3
          (.advance (st.fetcher.reset_counter - (recs.length : Int))
            st.more_than_stars ("\"" ++ pyFormat pcur ++ "\""))) := by
  rw [read_step_eq transport rf st recs part3 pcur hparse hne henh, hcur,
      cursor_update_continue _ _ _ _ _ hrc]
  rfl

/-- C1 (amended): for every call on a fresh fetcher with a set start
cursor, `max_chunk_size` 150 and a transport whose first two pages parse
to 100 records each — all with at least one topic, a present readme and
identifiers not previously seen — the call returns exactly 200 records
(the loop checks the chunk target only between pages, so it takes both
full pages) together with a present continuation cursor, the second
page's parser cursor in quotes. -/
theorem chunk_overshoot_amended (transport : Nat → JVal)
    (rf : JVal → Except PyErr (Option String)) (s0 : String) (mts : JVal)
    (recs1 recs2 : List RepoRecord) (c1 c2 : JVal) (fuel : Nat)
    (h1 : parse_gql_result (transport 0) = .ok (recs1, c1))
    (h2 : parse_gql_result (transport 1) = .ok (recs2, c2))
    (hl1 : recs1.length = 100) (hl2 : recs2.length = 100)
    (htop : ∀ r ∈ recs1 ++ recs2, r.topics ≠ [])
    (hrd : ∀ r ∈ recs1 ++ recs2, ∃ s, rf r.name_with_owner = .ok (some s))
    (hfresh : ∀ r ∈ recs2, r.id ∉ recs1.map (fun x => x.id)) :
    (runDone (read_repos_data transport rf DataFetcher_init 150 mts (some s0)
        (fuel + 3))).map (fun st => (st.repos_data.length, st.next_cursor))
      = some (200, some ("\"" ++ pyFormat c2 ++ "\"")) := by
  obtain ⟨p3, henh1, hp3len, hp3fil, hp3ids⟩ := enhance_pointwise rf recs1
    (fun r hr => hrd r (List.mem_append_left _ hr))
  obtain ⟨q3, henh2, hq3len, hq3fil, hq3ids⟩ := enhance_pointwise rf recs2
    (fun r hr => hrd r (List.mem_append_right _ hr))
  have hne1 : recs1 ≠ [] := by
    intro h
    rw [h] at hl1
    simp at hl1
  have hne2 : recs2 ≠ [] := by
    intro h
    rw [h] at hl2
    simp at hl2
  have hfil1 : recs1.filter (fun r => decide (r.id ∉ ([] : List JVal))) = recs1 :=
    filter_notin_of _ _ (by intro r hr; simp)
  have htop1 : recs1.filter (fun r => decide (r.topics.length > 0)) = recs1 :=
    filter_topics_of _ (fun r hr => htop r (List.mem_append_left _ hr))
  have htop2 : recs2.filter (fun r => decide (r.topics.length > 0)) = recs2 :=
    filter_topics_of _ (fun r hr => htop r (List.mem_append_right _ hr))
  have hfil2 : recs2.filter
      (fun r => decide (r.id ∉ recs1.map (fun x => x.id))) = recs2 :=
    filter_notin_of _ _ hfresh
  have hp3all : ∀ a ∈ p3, ¬ a.readme = none := by
    intro a ha
    have := List.filter_eq_self.mp hp3fil a ha
    simpa using this
  have hq3all : ∀ a ∈ q3, ¬ a.readme = none := by
    intro a ha
    have := List.filter_eq_self.mp hq3fil a ha
    simpa using this
  have hfil2x : recs2.filter (fun r => decide (∀ x ∈ recs1, ¬ x.id = r.id))
      = recs2 := by
    rw [List.filter_eq_self]
    intro r hr
    simpa using hfresh r hr
  have hstep1 : read_step transport rf
      { fetcher := DataFetcher_init, repos_data := [], page := 0,
        next_cursor := some s0, more_than_stars := mts,
        gql := { search := starsSearch mts, first := PAGE_SIZE, after := s0 },
        calls := 0 }
      = .ok (.again
      { fetcher := { total_read := 100, reset_counter := 900,
                     read_ids := recs1.map (fun r => r.id) },
        repos_data := p3,
        page := 1,
        next_cursor := some ("\"" ++ pyFormat c1 ++ "\""),
        more_than_stars := mts,
        gql := { search := starsSearch mts, first := PAGE_SIZE,
                 after := "\"" ++ pyFormat c1 ++ "\"" },
        calls := 1 }) := by
    rw [read_step_continue transport rf _ recs1 p3 c1 s0 h1 hne1
      (by show enhance_repos_with_readme rf
            ((recs1.filter (fun r => decide (r.id ∉ ([] : List JVal)))).filter
              (fun r => decide (r.topics.length > 0))) = .ok p3
          rw [hfil1, htop1]
          exact henh1)
      (by show ¬ (1000 : Int) - (recs1.length : Int) ≤ 0
          rw [hl1]
          decide)
      rfl]
    simp [step_apply, step_base, hfil1, hp3fil, hl1, DataFetcher_init,
      MAX_ITEMS_PER_QUERY]
    exact hp3all
  have hstep2 : read_step transport rf
      { fetcher := { total_read := 100, reset_counter := 900,
                     read_ids := recs1.map (fun r => r.id) },
        repos_data := p3,
        page := 1,
        next_cursor := some ("\"" ++ pyFormat c1 ++ "\""),
        more_than_stars := mts,
        gql := { search := starsSearch mts, first := PAGE_SIZE,
                 after := "\"" ++ pyFormat c1 ++ "\"" },
        calls := 1 }
      = .ok (.again
      { fetcher := { total_read := 200, reset_counter := 800,
                     read_ids := recs1.map (fun r => r.id)
                       ++ recs2.map (fun r => r.id) },
        repos_data := p3 ++ q3,
        page := 2,
        next_cursor := some ("\"" ++ pyFormat c2 ++ "\""),
        more_than_stars := mts,
        gql := { search := starsSearch mts, first := PAGE_SIZE,
                 after := "\"" ++ pyFormat c2 ++ "\"" },
        calls := 2 }) := by
    rw [read_step_continue transport rf _ recs2 q3 c2
      ("\"" ++ pyFormat c1 ++ "\"") h2 hne2
      (by show enhance_repos_with_readme rf
            ((recs2.filter
              (fun r => decide (r.id ∉ recs1.map (fun r => r.id)))).filter
              (fun r => decide (r.topics.length > 0))) = .ok q3
          rw [hfil2, htop2]
          exact henh2)
      (by show ¬ (900 : Int) - (recs2.length : Int) ≤ 0
          rw [hl2]
          decide)
      rfl]
    simp [step_apply, step_base, hfil2, hfil2x, hq3fil, hl2]
    exact hq3all
  have hrun : read_repos_data transport rf DataFetcher_init 150 mts (some s0)
      (fuel + 3)
      = .ok (.done
      { fetcher := { total_read := 200, reset_counter := 800,
                     read_ids := recs1.map (fun r => r.id)
                       ++ recs2.map (fun r => r.id) },
        repos_data := p3 ++ q3,
        page := 2,
        next_cursor := some ("\"" ++ pyFormat c2 ++ "\""),
        more_than_stars := mts,
        gql := { search := starsSearch mts, first := PAGE_SIZE,
                 after := "\"" ++ pyFormat c2 ++ "\"" },
        calls := 2 }) := by
    show read_loop transport rf 150 (fuel + 1 + 1 + 1) _ = _
    rw [read_loop_cons _ _ _ _ _ _ (by norm_num) hstep1,
        read_loop_cons _ _ _ _ _ _
          (by show (p3.length : Int) < 150
              rw [hp3len, hl1]
              decide) hstep2,
        read_loop_stop _ _ _ _ _
          (by show ¬ ((p3 ++ q3).length : Int) < 150
              rw [List.length_append, hp3len, hq3len, hl1, hl2]
              decide)]
  rw [hrun]
  simp only [runDone, Option.map]
  rw [show (p3 ++ q3).length = 200 by
    rw [List.length_append, hp3len, hq3len, hl1, hl2]]

/-- A page whose two edges carry the same repository identifier. -/
def dupPage : JVal :=
  .obj [("data", .obj [("search", .obj [
    ("pageInfo", .obj [("startCursor", .str "A"), ("endCursor", .str "B")]),
    ("edges", .arr [mkNode 7, mkNode 7])])])]

/-- A transport producing the duplicate-identifier page, then nothing. -/
def c5transport : Nat → JVal :=
  fun k => if k = 0 then dupPage else .null

/-- C5 counterexample: a page containing the same identifier twice passes
the dedup filter with both occurrences (the filter consults only the
identifiers seen on earlier pages), so that identifier appears twice in
the accumulated output and twice in the seen-identifier list. -/
theorem duplicate_id_within_page_not_deduped :
    (runDone (read_repos_data c5transport alwaysReadme DataFetcher_init 10
        (.int 300) (some "\"s\"") 3)).map
      (fun st => ((st.repos_data.map (fun r => r.id)).count (.int 7),
                  st.fetcher.read_ids))
      = some (2, [.int 7, .int 7]) := by
  have h1 : read_step c5transport alwaysReadme
      { fetcher := DataFetcher_init, repos_data := [], page := 0,
        next_cursor := some "\"s\"", more_than_stars := .int 300,
        gql := { search := starsSearch (.int 300), first := PAGE_SIZE,
                 after := "\"s\"" },
        calls := 0 }
      = .ok (.again
      { fetcher := { total_read := 2, reset_counter := 998,
                     read_ids := [.int 7, .int 7] },
        repos_data := [{ mkRecord 7 with readme := some "R" },
                       { mkRecord 7 with readme := some "R" }],
        page := 1,
        next_cursor := some "\"B\"",
        more_than_stars := .int 300,
        gql := { search := "stars:>300", first := 100, after := "\"B\"" },
        calls := 1 }) := by decide
  have h2 : read_step c5transport alwaysReadme
      { fetcher := { total_read := 2, reset_counter := 998,
                     read_ids := [.int 7, .int 7] },
        repos_data := [{ mkRecord 7 with readme := some "R" },
                       { mkRecord 7 with readme := some "R" }],
        page := 1,
        next_cursor := some "\"B\"",
        more_than_stars := .int 300,
        gql := { search := "stars:>300", first := 100, after := "\"B\"" },
        calls := 1 }
      = .ok (.finished
      { fetcher := { total_read := 2, reset_counter := 998,
                     read_ids := [.int 7, .int 7] },
        repos_data := [{ mkRecord 7 with readme := some "R" },
                       { mkRecord 7 with readme := some "R" }],
        page := 2,
        next_cursor := some "\"B\"",
        more_than_stars := .int 300,
        gql := { search := "stars:>300", first := 100, after := "\"B\"" },
        calls := 2 }) := by decide
  have hrun : read_repos_data c5transport alwaysReadme DataFetcher_init 10
      (.int 300) (some "\"s\"") 3
      = .ok (.done
      { fetcher := { total_read := 2, reset_counter := 998,
                     read_ids := [.int 7, .int 7] },
        repos_data := [{ mkRecord 7 with readme := some "R" },
                       { mkRecord 7 with readme := some "R" }],
        page := 2,
        next_cursor := some "\"B\"",
        more_than_stars := .int 300,
        gql := { search := "stars:>300", first := 100, after := "\"B\"" },
        calls := 2 }) := by
    show read_loop c5transport alwaysReadme 10 (1 + 1 + 1) _ = _
    rw [read_loop_cons _ _ _ _ _ _ (by decide) h1,
        read_loop_finish _ _ _ _ _ _ (by decide) h2]
  rw [hrun]
  simp only [runDone, Option.map]
  decide

/-- The identifiers of the records accumulated so far. -/
def outIds (st : LoopSt) : List JVal :=
  st.repos_data.map (fun r => r.id)

/-- The dedup invariant: the seen-identifier list has no duplicates, the
accumulated output has no duplicated identifiers, and every accumulated
identifier has been recorded as seen. -/
def c5inv (st : LoopSt) : Prop :=
  st.fetcher.read_ids.Nodup ∧ (outIds st).Nodup
    ∧ ∀ i ∈ outIds st, i ∈ st.fetcher.read_ids

instance c5inv_decidable (st : LoopSt) : Decidable (c5inv st) := by
  unfold c5inv
  infer_instance

instance listPrefixDecidable {α : Type} [DecidableEq α] (l₁ l₂ : List α) :
    Decidable (l₁ <+: l₂) :=
  decidable_of_iff (l₁ = l₂.take l₁.length) List.prefix_iff_eq_take.symm

/-- Whether the page at transport index k parses to records with pairwise
distinct identifiers (vacuously true when parsing raises). -/
def pageNodupB (transport : Nat → JVal) (k : Nat) : Bool :=
  match parse_gql_result (transport k) with
  | .ok (recs, _) => decide ((recs.map (fun r => r.id)).Nodup)
  | .error _ => true

/-- The state carried by a step result. -/
def StepRes.state : StepRes → LoopSt
  | .again st => st
  | .finished st => st

/-- The dedup postcondition of a run from a state whose seen identifiers
were `init`: whenever the run did not raise, the final state satisfies
the invariant and its seen-identifier list extends `init`. -/
def c5post (init : List JVal) (res : Except PyErr RunOut) : Bool :=
  match runState res with
  | none => true
  | some st => decide (c5inv st) && decide (init <+: st.fetcher.read_ids)

/-- Helper: enrichment does not change the identifiers of the records. -/
theorem enhance_ids (rf : JVal → Except PyErr (Option String))
    (l l' : List RepoRecord)
    (h : enhance_repos_with_readme rf l = .ok l') :
    l'.map (fun r => r.id) = l.map (fun r => r.id) := by
  induction l generalizing l' with
  | nil =>
      simp only [enhance_repos_with_readme] at h
      obtain rfl : ([] : List RepoRecord) = l' := by simpa using h
      rfl
  | cons r rs ih =>
      simp only [enhance_repos_with_readme] at h
      cases hrf : rf r.name_with_owner with
      | error e =>
          rw [hrf] at h
          simp at h
      | ok rm =>
          rw [hrf] at h
          simp only [exc_bind_ok] at h
          cases he : enhance_repos_with_readme rf rs with
          | error e =>
              rw [he] at h
              simp at h
          | ok rest =>
              rw [he] at h
              simp only [exc_bind_ok, exc_pure_eq] at h
              obtain rfl : ({ r with readme := rm } :: rest) = l' := by
                simpa using h
              simp [ih rest he]

/-- Helper: an enrichment failure aborts the whole iteration. -/
theorem read_step_enh_error (transport : Nat → JVal)
    (rf : JVal → Except PyErr (Option String)) (st : LoopSt)
    (recs : List RepoRecord) (pcur : JVal) (e : PyErr)
    (hparse : parse_gql_result (transport st.calls) = .ok (recs, pcur))
    (hne : recs ≠ [])
    (henh : enhance_repos_with_readme rf
      ((recs.filter (fun r => decide (r.id ∉ st.fetcher.read_ids))).filter
        (fun r => decide (r.topics.length > 0))) = .error e) :
    read_step transport rf st = .error e := by
  have hlen : ¬ recs.length = 0 := by simpa using hne
  simp only [read_step, hparse, exc_bind_ok, if_neg hlen, henh, exc_bind_err]

/-- Helper: one successful iteration preserves the dedup invariant and
extends the seen-identifier list, provided the page's own identifiers are
pairwise distinct. -/
theorem read_step_c5 (transport : Nat → JVal)
    (rf : JVal → Except PyErr (Option String)) (st : LoopSt) (res : StepRes)
    (hinv : c5inv st) (hpage : pageNodupB transport st.calls = true)
    (hstep : read_step transport rf st = .ok res) :
    c5inv res.state ∧ st.fetcher.read_ids <+: res.state.fetcher.read_ids := by
  obtain ⟨hids, hout, hsub⟩ := hinv
  cases hp : parse_gql_result (transport st.calls) with
  | error e =>
      rw [read_step, hp] at hstep
      simp at hstep
  | ok pr =>
      obtain ⟨recs, pcur⟩ := pr
      have hnodup : (recs.map (fun r => r.id)).Nodup := by
        have h := hpage
        rw [pageNodupB, hp] at h
        simpa using h
      by_cases hne : recs = []
      · subst hne
        rw [read_step_empty transport rf st pcur hp] at hstep
        obtain rfl : res
            = .finished { st with page := st.page + 1, calls := st.calls + 1 } := by
          simpa using hstep.symm
        exact ⟨⟨hids, hout, hsub⟩, List.prefix_refl _⟩
      · cases he : enhance_repos_with_readme rf
            ((recs.filter (fun r => decide (r.id ∉ st.fetcher.read_ids))).filter
              (fun r => decide (r.topics.length > 0))) with
        | error e =>
            rw [read_step_enh_error transport rf st recs pcur e hp hne he]
              at hstep
            simp at hstep
        | ok part3 =>
            rw [read_step_eq transport rf st recs part3 pcur hp hne he] at hstep
            cases hu : cursor_threshold_update
                (st.fetcher.reset_counter - (recs.length : Int))
                st.more_than_stars ((recs.getLastD default).stargazers_count)
                st.next_cursor pcur with
            | error e =>
                rw [hu] at hstep
                simp [Except.map] at hstep
            | ok u =>
                rw [hu] at hstep
                simp only [Except.map] at hstep
                obtain rfl : res = step_apply st recs part3 u := by
                  simpa using hstep.symm
                have hstate_ids : (step_apply st recs part3 u).state.fetcher.read_ids
                    = st.fetcher.read_ids
                      ++ (recs.filter
                        (fun r => decide (r.id ∉ st.fetcher.read_ids))).map
                          (fun r => r.id) := by
                  cases u <;> rfl
                have hstate_out : (step_apply st recs part3 u).state.repos_data
                    = st.repos_data
                      ++ part3.filter (fun r => decide (r.readme ≠ none)) := by
                  cases u <;> rfl
                have h1nodup : ((recs.filter
                    (fun r => decide (r.id ∉ st.fetcher.read_ids))).map
                      (fun r => r.id)).Nodup :=
                  List.Nodup.sublist
                    (List.Sublist.map (fun r => r.id)
                      (List.filter_sublist recs)) hnodup
                have h1fresh : ∀ x ∈ (recs.filter
                    (fun r => decide (r.id ∉ st.fetcher.read_ids))).map
                      (fun r => r.id), x ∉ st.fetcher.read_ids := by
                  intro x hx
                  obtain ⟨r, hr, rfl⟩ := List.mem_map.mp hx
                  have := List.of_mem_filter hr
                  simpa using this
                have h32 : part3.map (fun r => r.id)
                    = ((recs.filter
                      (fun r => decide (r.id ∉ st.fetcher.read_ids))).filter
                        (fun r => decide (r.topics.length > 0))).map
                          (fun r => r.id) :=
                  enhance_ids rf _ part3 he
                have h41 : ∀ x ∈ (part3.filter
                    (fun r => decide (r.readme ≠ none))).map (fun r => r.id),
                    x ∈ (recs.filter
                      (fun r => decide (r.id ∉ st.fetcher.read_ids))).map
                        (fun r => r.id) := by
                  intro x hx
                  have hx3 : x ∈ part3.map (fun r => r.id) :=
                    (List.Sublist.map (fun r => r.id)
                      (List.filter_sublist part3)).subset hx
                  rw [h32] at hx3
                  exact (List.Sublist.map (fun r => r.id)
                    (List.filter_sublist
                      (recs.filter
                        (fun r => decide (r.id ∉ st.fetcher.read_ids))))).subset
                    hx3
                have h4nodup : ((part3.filter
                    (fun r => decide (r.readme ≠ none))).map
                      (fun r => r.id)).Nodup := by
                  refine List.Nodup.sublist
                    (List.Sublist.map (fun r => r.id)
                      (List.filter_sublist part3)) ?_
                  rw [h32]
                  exact List.Nodup.sublist
                    (List.Sublist.map (fun r => r.id)
                      (List.filter_sublist
                        (recs.filter
                          (fun r => decide (r.id ∉ st.fetcher.read_ids)))))
                    h1nodup
                refine ⟨⟨?_, ?_, ?_⟩, ?_⟩
                · rw [hstate_ids]
                  exact hids.append h1nodup (List.disjoint_right.mpr h1fresh)
                · show ((step_apply st recs part3 u).state.repos_data.map
                    (fun r => r.id)).Nodup
                  rw [hstate_out, List.map_append]
                  refine hout.append h4nodup ?_
                  intro a ha ha4
                  exact h1fresh a (h41 a ha4) (hsub a ha)
                · intro i hi
                  rw [hstate_ids]
                  have hi2 : i ∈ (st.repos_data
                      ++ part3.filter (fun r => decide (r.readme ≠ none))).map
                        (fun r => r.id) := by
                    have : outIds (step_apply st recs part3 u).state
                        = (st.repos_data
                          ++ part3.filter
                            (fun r => decide (r.readme ≠ none))).map
                              (fun r => r.id) := by
                      rw [outIds, hstate_out]
                    rw [← this]
                    exact hi
                  rw [List.map_append] at hi2
                  rcases List.mem_append.mp hi2 with h | h
                  · exact List.mem_append_left _ (hsub i h)
                  · exact List.mem_append_right _ (h41 i h)
                · rw [hstate_ids]
                  exact List.prefix_append _ _

/-- Helper: the dedup postcondition is monotone in the initial
seen-identifier list. -/
theorem c5post_mono (a b : List JVal) (res : Except PyErr RunOut)
    (hab : a <+: b) (h : c5post b res = true) : c5post a res = true := by
  unfold c5post at *
  cases hr : runState res with
  | none => rfl
  | some st =>
      rw [hr] at h
      simp only [Bool.and_eq_true, decide_eq_true_eq] at h ⊢
      exact ⟨h.1, hab.trans h.2⟩

/-- Helper: the page loop preserves the dedup invariant, for any fuel. -/
theorem read_loop_c5 (transport : Nat → JVal)
    (rf : JVal → Except PyErr (Option String)) (mcs : Int) (fuel : Nat)
    (st : LoopSt) (hinv : c5inv st)
    (hpages : ∀ k, pageNodupB transport k = true) :
    c5post st.fetcher.read_ids (read_loop transport rf mcs fuel st) = true := by
  induction fuel generalizing st with
  | zero =>
      simp only [read_loop, c5post, runState, Bool.and_eq_true,
        decide_eq_true_eq]
      exact ⟨hinv, List.prefix_refl _⟩
  | succ n ih =>
      by_cases hc : (st.repos_data.length : Int) < mcs
      · cases hs : read_step transport rf st with
        | error e =>
            simp [read_loop, if_pos hc, hs, c5post, runState]
        | ok res =>
            obtain ⟨hinv', hpre⟩ :=
              read_step_c5 transport rf st res hinv (hpages st.calls) hs
            cases res with
            | finished st' =>
                simp only [read_loop, if_pos hc, hs, c5post, runState,
                  Bool.and_eq_true, decide_eq_true_eq]
                exact ⟨hinv', hpre⟩
            | again st' =>
                simp only [read_loop, if_pos hc, hs]
                exact c5post_mono _ _ _ hpre (ih st' hinv')
      · simp only [read_loop, if_neg hc, c5post, runState, Bool.and_eq_true,
          decide_eq_true_eq]
        exact ⟨hinv, List.prefix_refl _⟩

/-- C5 (amended): the seen-identifier list only ever grows — after each
successful page iteration it equals the previous list extended by exactly
the page's first-occurrence identifiers (those not already seen) — and,
provided every page's parsed records carry pairwise-distinct identifiers,
any run of the page loop from a state satisfying the dedup invariant ends
(when it does not raise) in a state that still satisfies it: the
accumulated output mentions every identifier at most once, all output
identifiers are recorded as seen, and the new seen list extends the old
one.  Within-page duplicate identifiers are not filtered (see the
counterexample), which is why the distinctness proviso is needed. -/
theorem seen_ids_monotone_dedup (transport : Nat → JVal)
    (rf : JVal → Except PyErr (Option String)) (mcs : Int) :
    (∀ st res recs c, parse_gql_result (transport st.calls) = .ok (recs, c) →
      read_step transport rf st = .ok res →
      res.state.fetcher.read_ids
        = st.fetcher.read_ids
          ++ (recs.filter (fun r => decide (r.id ∉ st.fetcher.read_ids))).map
              (fun r => r.id))
    ∧ (∀ fuel st, c5inv st → (∀ k, pageNodupB transport k = true) →
        c5post st.fetcher.read_ids (read_loop transport rf mcs fuel st)
          = true) := by
  constructor
  · intro st res recs c hp hstep
    by_cases hne : recs = []
    · subst hne
      rw [read_step_empty transport rf st c hp] at hstep
      obtain rfl : res
          = .finished { st with page := st.page + 1, calls := st.calls + 1 } := by
        simpa using hstep.symm
      simp [StepRes.state]
    · cases he : enhance_repos_with_readme rf
          ((recs.filter (fun r => decide (r.id ∉ st.fetcher.read_ids))).filter
            (fun r => decide (r.topics.length > 0))) with
      | error e =>
          rw [read_step_enh_error transport rf st recs c e hp hne he] at hstep
          simp at hstep
      | ok part3 =>
          rw [read_step_eq transport rf st recs part3 c hp hne he] at hstep
          cases hu : cursor_threshold_update
              (st.fetcher.reset_counter - (recs.length : Int))
              st.more_than_stars ((recs.getLastD default).stargazers_count)
              st.next_cursor c with
          | error e =>
              rw [hu] at hstep
              simp [Except.map] at hstep
          | ok u =>
              rw [hu] at hstep
              simp only [Except.map] at hstep
              obtain rfl : res = step_apply st recs part3 u := by
                simpa using hstep.symm
              cases u <;> rfl
  · intro fuel st hinv hpages
    exact read_loop_c5 transport rf mcs fuel st hinv hpages

/-- A transport producing one page of two distinct identifiers, then
nothing. -/
def w5transport : Nat → JVal :=
  fun k => if k = 0 then mkPage 0 2 "A" "B" else .null

/-- A fresh controller state for the C5 witness. -/
def w5st : LoopSt :=
  { fetcher := DataFetcher_init, repos_data := [], page := 0,
    next_cursor := some "\"s\"", more_than_stars := .int 300,
    gql := { search := starsSearch (.int 300), first := PAGE_SIZE,
             after := "\"s\"" },
    calls := 0 }

/-- Witness for the C5 theorem: a fresh controller state run over a page
with distinct identifiers satisfies the dedup postcondition. -/
theorem seen_ids_monotone_dedup_witness :
    c5post w5st.fetcher.read_ids
      (read_loop w5transport alwaysReadme 10 2 w5st) = true := by
  have hpages : ∀ k, pageNodupB w5transport k = true := by
    intro k
    cases k with
    | zero => decide
    | succ n => rfl
  exact (seen_ids_monotone_dedup w5transport alwaysReadme 10).2 2 w5st
    (by decide) hpages

set_option maxHeartbeats 4000000 in
set_option maxRecDepth 40000 in
/-- Witness for the C1 theorem at the concrete two-page transport. -/
theorem chunk_overshoot_amended_witness :
    (runDone (read_repos_data c1transport alwaysReadme DataFetcher_init 150
        (.int 300) (some "\"start\"") 3)).map
      (fun st => (st.repos_data.length, st.next_cursor))
      = some (200, some ("\"" ++ pyFormat (.str "B2") ++ "\"")) :=
  chunk_overshoot_amended c1transport alwaysReadme "\"start\"" (.int 300)
    (mkRecords 0 100) (mkRecords 100 100) (.str "B1") (.str "B2") 0
    (by decide) (by decide) (by decide) (by decide) (by decide)
    (fun r _ => ⟨"R", rfl⟩) (by decide)
